import Mathlib

/-!
Verification development for a minimal RPC runtime (tarpc readme example).

The repository's source under scrutiny is `examples/readme.rs`, which defines
the `World` service with one method `hello`, the `HelloServer` handler, and a
client that calls `hello` with `"Stim"`.  The runtime core (Context, Channel,
Client Stub, Server Dispatcher, wire codec) is exercised by that example but
its code is not part of the given sources; those components are modelled from
the specification, as marked on each definition.
-/

/-- Modelled from the spec: per-call metadata (§3, §4.2).  The Context carries
an optional deadline (a monotonic-clock timestamp, modelled as `Nat`) and an
optional trace identifier.  The Context code itself is missing from the given
sources. -/
structure Context where
  deadline : Option Nat
  trace_id : Option String
deriving DecidableEq, Repr

/-- Modelled from the spec: the caller-side default Context, "no deadline"
(§4.2).  The `context::current()` code is missing from the given sources. -/
def Context.current : Context :=
  { deadline := none, trace_id := none }

/-- Modelled from the spec: a Request wire message (§3, §6).  The opaque args
payload is modelled as a `String` (the example uses a JSON transport). -/
structure Request where
  id : Nat
  method : String
  deadline : Option Nat
  trace_id : Option String
  args : String
deriving DecidableEq, Repr

/-- Modelled from the spec: the outcome carried by a Response (§3):
`Ok(payload)` or `Err(kind, message)`. -/
inductive Outcome where
  | ok (payload : String)
  | err (kind : String) (message : String)
deriving DecidableEq, Repr

/-- Modelled from the spec: a Response wire message (§3, §6). -/
structure Response where
  id : Nat
  outcome : Outcome
deriving DecidableEq, Repr

/-- Modelled from the spec: one self-delimited frame is a serialized Request
or Response (§6, glossary).  The Frame code is missing from the given
sources. -/
inductive Frame where
  | request (r : Request)
  | response (r : Response)
deriving DecidableEq, Repr

/-- Modelled from the spec: a wire token of the encoding-agnostic codec (§6).
The concrete byte-level encoding is out of scope (§1), so a frame is encoded
into a flat token list with explicit tags. -/
inductive Token where
  | nat (n : Nat)
  | str (s : String)
deriving DecidableEq, Repr

/-- Modelled from the spec: encoding of an optional timestamp field
(`deadline?` in the wire schema, §6). -/
def encodeOptNat : Option Nat → List Token
  | none => [Token.nat 0]
  | some n => [Token.nat 1, Token.nat n]

/-- Modelled from the spec: encoding of an optional string field
(`trace_id?` in the wire schema, §6). -/
def encodeOptStr : Option String → List Token
  | none => [Token.nat 0]
  | some s => [Token.nat 1, Token.str s]

/-- Modelled from the spec: encoding of a Response outcome (§3, §6). -/
def encodeOutcome : Outcome → List Token
  | Outcome.ok p => [Token.nat 0, Token.str p]
  | Outcome.err k m => [Token.nat 1, Token.str k, Token.str m]

/-- Modelled from the spec: serialization of a frame into wire tokens (§6).
The serializer code is missing from the given sources. -/
def encodeFrame : Frame → List Token
  | Frame.request r =>
      Token.nat 0 :: Token.nat r.id :: Token.str r.method ::
        (encodeOptNat r.deadline ++ encodeOptStr r.trace_id ++ [Token.str r.args])
  | Frame.response r =>
      Token.nat 1 :: Token.nat r.id :: encodeOutcome r.outcome

/-- Modelled from the spec: decoding of an optional timestamp field,
returning the remaining tokens; malformed input yields `none` (treated as an
EncodingError by the Channel, §7). -/
def decodeOptNat : List Token → Option (Option Nat × List Token)
  | Token.nat 0 :: rest => some (none, rest)
  | Token.nat 1 :: Token.nat n :: rest => some (some n, rest)
  | _ => none

/-- Modelled from the spec: decoding of an optional string field. -/
def decodeOptStr : List Token → Option (Option String × List Token)
  | Token.nat 0 :: rest => some (none, rest)
  | Token.nat 1 :: Token.str s :: rest => some (some s, rest)
  | _ => none

/-- Modelled from the spec: deserialization of wire tokens back into a frame
(§6); malformed frames yield `none` (EncodingError, §7).  The deserializer
code is missing from the given sources. -/
def decodeFrame : List Token → Option Frame
  | Token.nat 0 :: Token.nat i :: Token.str method :: rest =>
      match decodeOptNat rest with
      | some (dl, rest1) =>
          match decodeOptStr rest1 with
          | some (tr, rest2) =>
              match rest2 with
              | [Token.str args] =>
                  some (Frame.request
                    { id := i, method := method, deadline := dl,
                      trace_id := tr, args := args })
              | _ => none
          | none => none
      | none => none
  | Token.nat 1 :: Token.nat i :: rest =>
      match rest with
      | [Token.nat 0, Token.str p] =>
          some (Frame.response { id := i, outcome := Outcome.ok p })
      | [Token.nat 1, Token.str k, Token.str m] =>
          some (Frame.response { id := i, outcome := Outcome.err k m })
      | _ => none
  | _ => none

/-- Embedded from src/tarpc/examples/readme.rs lines 35-37: the `hello`
handler of `HelloServer` returns `format!("Hello, \x7b\x7d!", name)` and
ignores its Context argument. -/
def HelloServer.hello (_ctx : Context) (name : String) : String :=
  "Hello, " ++ name ++ "!"

/-- Modelled from the spec: Channel lifecycle states (§4.5).  The Channel
code is missing from the given sources. -/
inductive ChanState where
  | Open
  | Draining
  | Closed
deriving DecidableEq, Repr

/-- Modelled from the spec: a terminal outcome observed by a caller (§4.3,
§7): the Response outcome, `DeadlineExceeded`, or `ChannelClosed`. -/
inductive CallOutcome where
  | response (o : Outcome)
  | deadlineExceeded
  | channelClosed
deriving DecidableEq, Repr

/-- Modelled from the spec: the client side of a Channel (§3, §4.5): the
pending table (here, the list of pending request ids; each id's completion
slot is represented by the `outcomes` ledger below), the monotonic `next_id`
counter, the lifecycle state, the frames written to the Transport, and the
ledger of terminal outcomes delivered to callers (each entry is one
resolution of one PendingCall completion slot). -/
structure ClientChannel where
  pending : List Nat
  next_id : Nat
  state : ChanState
  sent : List Frame
  outcomes : List (Nat × CallOutcome)
deriving DecidableEq, Repr

/-- Modelled from the spec: a freshly bound Channel, born Open with no
pending calls (§3 lifecycle). -/
def initChannel : ClientChannel :=
  { pending := [], next_id := 0, state := ChanState.Open,
    sent := [], outcomes := [] }

/-- Modelled from the spec: the Request built by the Client Stub from the
Context's deadline/trace id, the method name and the args (§4.3). -/
def mkRequest (i : Nat) (ctx : Context) (method args : String) : Request :=
  { id := i, method := method, deadline := ctx.deadline,
    trace_id := ctx.trace_id, args := args }

/-- Modelled from the spec: the Client Stub's call admission (§4.3, §4.5,
§5).  While the Channel is Open: allocate the next request id, insert the
PendingCall, and submit the serialized Request to the Transport.  When the
Channel no longer admits new calls (Draining or Closed), the call fails
immediately with `ChannelClosed` and nothing is sent (§5, §7). -/
def issueCall (ch : ClientChannel) (ctx : Context) (method args : String) :
    ClientChannel :=
  if ch.state = ChanState.Open then
    { ch with
        pending := ch.next_id :: ch.pending,
        next_id := ch.next_id + 1,
        sent := ch.sent ++ [Frame.request (mkRequest ch.next_id ctx method args)] }
  else
    { ch with
        next_id := ch.next_id + 1,
        outcomes := ch.outcomes ++ [(ch.next_id, CallOutcome.channelClosed)] }

/-- Modelled from the spec: the reader loop's handling of an incoming
Response frame (§4.5): on a pending-table hit, remove the entry and deliver
the outcome to its completion slot; on a miss, drop silently with no side
effect. -/
def deliverResponse (ch : ClientChannel) (resp : Response) : ClientChannel :=
  if resp.id ∈ ch.pending then
    { ch with
        pending := ch.pending.erase resp.id,
        outcomes := ch.outcomes ++ [(resp.id, CallOutcome.response resp.outcome)] }
  else ch

/-- Modelled from the spec: deadline expiry for one pending call (§4.3, §5):
remove the PendingCall from the table and deliver `DeadlineExceeded`; purely
local bookkeeping. -/
def fireDeadline (ch : ClientChannel) (i : Nat) : ClientChannel :=
  if i ∈ ch.pending then
    { ch with
        pending := ch.pending.erase i,
        outcomes := ch.outcomes ++ [(i, CallOutcome.deadlineExceeded)] }
  else ch

/-- Modelled from the spec: Channel closure (§3 lifecycle, §4.5): transition
to Closed and resolve every still-pending call with `ChannelClosed`. -/
def closeChannel (ch : ClientChannel) : ClientChannel :=
  { ch with
      state := ChanState.Closed,
      pending := [],
      outcomes := ch.outcomes ++
        ch.pending.map (fun i => (i, CallOutcome.channelClosed)) }

/-- Modelled from the spec: the events that drive a client Channel (§4.3,
§4.5): a caller issuing a call, the reader loop receiving a Response, a
deadline timer firing, and closure. -/
inductive Cmd where
  | call (ctx : Context) (method args : String)
  | deliver (resp : Response)
  | deadline (i : Nat)
  | close
deriving DecidableEq, Repr

/-- Modelled from the spec: one step of the client Channel. -/
def step (ch : ClientChannel) : Cmd → ClientChannel
  | Cmd.call ctx m a => issueCall ch ctx m a
  | Cmd.deliver resp => deliverResponse ch resp
  | Cmd.deadline i => fireDeadline ch i
  | Cmd.close => closeChannel ch

/-- Modelled from the spec: a run of the client Channel over a sequence of
events. -/
def run (ch : ClientChannel) (cmds : List Cmd) : ClientChannel :=
  cmds.foldl step ch

/-- Modelled from the spec: a registered handler (§4.4): takes the
reconstructed Context first and the decoded args, and either succeeds with a
payload or fails (throws/panics/errors, modelled as `Except.error` with an
error kind and message). -/
def Handler : Type :=
  Context → String → Except (String × String) String

/-- Modelled from the spec: the Dispatcher invoking one handler (§4.4):
the handler receives a Context reconstructed from the Request's
deadline/trace fields; its result — success or failure — is wrapped as a
Response carrying the same request id. -/
def runHandler (h : Handler) (req : Request) : Response :=
  match h { deadline := req.deadline, trace_id := req.trace_id } req.args with
  | Except.ok payload => { id := req.id, outcome := Outcome.ok payload }
  | Except.error e => { id := req.id, outcome := Outcome.err e.1 e.2 }

/-- Modelled from the spec: the Server Dispatcher for one Request (§4.4):
look up the handler by method name in the Service Contract registry; if
absent, synthesize an `UnknownMethod` error Response; otherwise invoke the
handler and wrap its result with the same id. -/
def dispatch (reg : List (String × Handler)) (req : Request) : Response :=
  match reg.lookup req.method with
  | some h => runHandler h req
  | none => { id := req.id, outcome := Outcome.err "UnknownMethod" req.method }

/-- Modelled from the spec: the Dispatcher over a batch of Requests; each
Request is handled independently (§4.4, §5). -/
def serveAll (reg : List (String × Handler)) (reqs : List Request) :
    List Response :=
  reqs.map (dispatch reg)

/-- Modelled from the spec: the server side of a Channel (§4.4, §4.5):
lifecycle state and the Responses submitted back through the Channel. -/
structure ServerChannel where
  state : ChanState
  sentResponses : List Response
deriving Repr

/-- Modelled from the spec: the server Channel consuming one Request (§4.4):
dispatch it and submit the Response provided the Channel is still Open or
Draining. -/
def serveStep (reg : List (String × Handler)) (sch : ServerChannel)
    (req : Request) : ServerChannel :=
  match sch.state with
  | ChanState.Closed => sch
  | _ => { sch with sentResponses := sch.sentResponses ++ [dispatch reg req] }

/-- Modelled from the spec: the whole system, client and server ends of one
connection (§2). -/
structure World where
  client : ClientChannel
  server : ServerChannel

/-- Modelled from the spec: deadline expiry acting on the whole system
(§5): it is purely local to the calling side. -/
def worldFireDeadline (w : World) (i : Nat) : World :=
  { w with client := fireDeadline w.client i }

/-- Embedded from src/tarpc/examples/readme.rs: the `hello` handler wrapped
for registration; `HelloServer::hello` always succeeds. -/
def helloHandler : Handler :=
  fun ctx name => Except.ok (HelloServer.hello ctx name)

/-- Embedded from src/tarpc/examples/readme.rs lines 19-22: the `World`
service contract registers exactly one method, `hello`. -/
def worldRegistry : List (String × Handler) :=
  [("hello", helloHandler)]

/-- Modelled from the spec: the full data-flow path of one call (§2, §8):
the Client Stub issues the call on a fresh Channel (serialize, send), the
frame crosses the wire (encode then decode), the Dispatcher invokes the
matching handler, the Response crosses the wire back, the reader loop
matches it against the pending table, and the outcome of request id 0 is
read back.  Any codec failure yields `none`. -/
def endToEnd (ctx : Context) (method args : String) : Option CallOutcome :=
  let ch := issueCall initChannel ctx method args
  match ch.sent with
  | [f] =>
      match decodeFrame (encodeFrame f) with
      | some (Frame.request req) =>
          let resp := dispatch worldRegistry req
          match decodeFrame (encodeFrame (Frame.response resp)) with
          | some (Frame.response r2) =>
              ((deliverResponse ch r2).outcomes).lookup 0
          | _ => none
      | _ => none
  | _ => none

/-- The request ids of the outcomes delivered so far, in delivery order. -/
def outcomeKeys (ch : ClientChannel) : List Nat :=
  ch.outcomes.map Prod.fst

/-- The call ledger invariant: every allocated request id (one below
`next_id`) is accounted for exactly once, either as a still-pending call or
as exactly one delivered terminal outcome, and unallocated ids appear
nowhere. -/
def CallLedger (ch : ClientChannel) : Prop :=
  ∀ i : Nat, (outcomeKeys ch).count i + ch.pending.count i =
    if i < ch.next_id then 1 else 0

theorem map_fst_tag (l : List Nat) (c : CallOutcome) :
    (l.map (fun i => (i, c))).map Prod.fst = l := by
  induction l with
  | nil => rfl
  | cons x xs ih => simp [ih]

theorem map_fst_comp_tag (l : List Nat) (c : CallOutcome) :
    l.map (Prod.fst ∘ fun i => (i, c)) = l := by
  induction l with
  | nil => rfl
  | cons x xs ih => simp [ih]

theorem callLedger_init : CallLedger initChannel := by
  intro i
  simp [CallLedger, initChannel, outcomeKeys]

theorem callLedger_step (ch : ClientChannel) (c : Cmd) (h : CallLedger ch) :
    CallLedger (step ch c) := by
  cases c with
  | call ctx m a =>
      intro i
      have hi := h i
      by_cases hs : ch.state = ChanState.Open <;>
        simp only [outcomeKeys] at hi ⊢ <;>
        simp [step, issueCall, hs, outcomeKeys, List.count_cons,
          List.count_append, List.count_nil] <;>
        split_ifs at hi ⊢ <;> omega
  | deliver resp =>
      intro i
      have hi := h i
      by_cases hm : resp.id ∈ ch.pending
      · have hp : 0 < ch.pending.count resp.id := List.count_pos_iff.mpr hm
        by_cases he : resp.id = i
        · subst he
          simp only [outcomeKeys] at hi ⊢
          simp [step, deliverResponse, hm, List.count_append,
            List.count_erase, List.count_cons, List.count_nil]
          split_ifs at hi ⊢ <;> omega
        · simp only [outcomeKeys] at hi ⊢
          simp [step, deliverResponse, hm, List.count_append,
            List.count_erase, List.count_cons, List.count_nil, he]
          split_ifs at hi ⊢ <;> omega
      · simpa [step, deliverResponse, hm, outcomeKeys] using hi
  | deadline j =>
      intro i
      have hi := h i
      by_cases hm : j ∈ ch.pending
      · have hp : 0 < ch.pending.count j := List.count_pos_iff.mpr hm
        by_cases he : j = i
        · subst he
          simp only [outcomeKeys] at hi ⊢
          simp [step, fireDeadline, hm, List.count_append,
            List.count_erase, List.count_cons, List.count_nil]
          split_ifs at hi ⊢ <;> omega
        · simp only [outcomeKeys] at hi ⊢
          simp [step, fireDeadline, hm, List.count_append,
            List.count_erase, List.count_cons, List.count_nil, he]
          split_ifs at hi ⊢ <;> omega
      · simpa [step, fireDeadline, hm, outcomeKeys] using hi
  | close =>
      intro i
      have hi := h i
      simp only [outcomeKeys] at hi ⊢
      simp [step, closeChannel, List.map_append, map_fst_tag,
        map_fst_comp_tag, List.count_append, List.count_nil]
      split_ifs at hi ⊢ <;> omega

theorem callLedger_run (cmds : List Cmd) (ch : ClientChannel)
    (h : CallLedger ch) : CallLedger (run ch cmds) := by
  induction cmds generalizing ch with
  | nil => exact h
  | cons c cs ih => exact ih (step ch c) (callLedger_step ch c h)

theorem run_append_one (ch : ClientChannel) (cmds : List Cmd) (c : Cmd) :
    run ch (cmds ++ [c]) = step (run ch cmds) c := by
  simp [run, List.foldl_append]

/-- Claim C1: calling method `hello` with argument "Stim" through the full
path (serialize, send, dispatch, invoke the registered handler that returns
"Hello, " + name + "!", respond, deserialize) yields the outcome
Ok("Hello, Stim!") at the client. -/
theorem hello_end_to_end :
    endToEnd Context.current "hello" "Stim" =
      some (CallOutcome.response (Outcome.ok "Hello, Stim!")) := by
  rfl

/-- Claim C2: for every call issued during a run of the Channel (request id
`i` below `next_id`; this covers in particular every call issued while the
Channel was Open), the caller observes exactly one terminal outcome once the
Channel's lifecycle completes with closure, and at no point of the run has
more than one outcome been delivered for it. -/
theorem call_exactly_one_outcome (cmds : List Cmd) (i : Nat)
    (hi : i < (run initChannel cmds).next_id) :
    ((run initChannel (cmds ++ [Cmd.close])).outcomes.map Prod.fst).count i
      = 1 ∧
    ((run initChannel cmds).outcomes.map Prod.fst).count i ≤ 1 := by
  have hL : CallLedger (run initChannel cmds) :=
    callLedger_run cmds initChannel callLedger_init
  have h1 := hL i
  simp only [outcomeKeys] at h1
  rw [if_pos hi] at h1
  constructor
  · rw [run_append_one]
    show ((closeChannel (run initChannel cmds)).outcomes.map Prod.fst).count i
      = 1
    simp [closeChannel, List.map_append, map_fst_tag, map_fst_comp_tag,
      List.count_append]
    omega
  · omega

/-- Witness for C2: a run that issues one call (allocating id 0) on the
fresh Open channel; after the closing step the ledger holds exactly one
outcome for id 0. -/
theorem call_exactly_one_outcome_witness :
    0 < (run initChannel [Cmd.call Context.current "hello" "Stim"]).next_id ∧
    (((run initChannel
        ([Cmd.call Context.current "hello" "Stim"] ++ [Cmd.close])).outcomes.map
          Prod.fst).count 0 = 1 ∧
     ((run initChannel
        [Cmd.call Context.current "hello" "Stim"]).outcomes.map
          Prod.fst).count 0 ≤ 1) :=
  ⟨by decide,
   call_exactly_one_outcome [Cmd.call Context.current "hello" "Stim"] 0
     (by decide)⟩

/-- Claim C3: closing a Channel resolves every pending call with
ChannelClosed (one ledger entry per pending id, K entries for K pending
calls), empties the pending table, and any call issued on the closed Channel
fails immediately with ChannelClosed while the Transport sees no new
frame. -/
theorem close_resolves_all_pending (ch : ClientChannel) (ctx : Context)
    (m a : String) :
    (closeChannel ch).pending = [] ∧
    (closeChannel ch).state = ChanState.Closed ∧
    (closeChannel ch).outcomes =
      ch.outcomes ++ ch.pending.map (fun i => (i, CallOutcome.channelClosed)) ∧
    (closeChannel ch).outcomes.length =
      ch.outcomes.length + ch.pending.length ∧
    (issueCall (closeChannel ch) ctx m a).sent = (closeChannel ch).sent ∧
    (issueCall (closeChannel ch) ctx m a).outcomes =
      (closeChannel ch).outcomes ++ [(ch.next_id, CallOutcome.channelClosed)] := by
  refine ⟨rfl, rfl, rfl, ?_, ?_, ?_⟩
  · simp [closeChannel]
  · simp [issueCall, closeChannel]
  · simp [issueCall, closeChannel]

/-- Claim C4: a Response whose id has no matching entry in the pending table
is dropped with no side effect: the whole client Channel — pending table,
outcome ledger of every other call, lifecycle state, and sent frames — is
unchanged. -/
theorem stale_response_dropped (ch : ClientChannel) (resp : Response)
    (h : resp.id ∉ ch.pending) :
    deliverResponse ch resp = ch := by
  simp [deliverResponse, h]

/-- Witness for C4: a response with id 7 arriving at the fresh channel,
whose pending table is empty, is dropped. -/
theorem stale_response_dropped_witness :
    ((7 : Nat) ∉ initChannel.pending) ∧
    deliverResponse initChannel { id := 7, outcome := Outcome.ok "late" } =
      initChannel :=
  ⟨by decide,
   stale_response_dropped initChannel { id := 7, outcome := Outcome.ok "late" }
     (by decide)⟩

/-- Claim C5: decoding the encoding of any valid Request or Response frame
reproduces the message exactly — identical id, method/outcome, and payload
fields. -/
theorem frame_roundtrip (req : Request) (resp : Response) :
    decodeFrame (encodeFrame (Frame.request req)) = some (Frame.request req) ∧
    decodeFrame (encodeFrame (Frame.response resp)) =
      some (Frame.response resp) := by
  constructor
  · obtain ⟨i, m, dl, tr, a⟩ := req
    cases dl <;> cases tr <;> rfl
  · obtain ⟨i, o⟩ := resp
    cases o <;> rfl

/-- Claim C6: in every state reachable by a run of the client Channel, the
ids of the currently pending calls are pairwise distinct, and the next id to
be allocated is not among them (so each newly allocated request id is unique
among the currently pending calls). -/
theorem pending_ids_unique (cmds : List Cmd) :
    (run initChannel cmds).pending.Nodup ∧
    (run initChannel cmds).next_id ∉ (run initChannel cmds).pending := by
  have hL : CallLedger (run initChannel cmds) :=
    callLedger_run cmds initChannel callLedger_init
  constructor
  · rw [List.nodup_iff_count_le_one]
    intro a
    have h1 := hL a
    split_ifs at h1 <;> omega
  · intro hmem
    have h1 := hL (run initChannel cmds).next_id
    have hp : 0 < (run initChannel cmds).pending.count
        (run initChannel cmds).next_id := List.count_pos_iff.mpr hmem
    rw [if_neg (Nat.lt_irrefl _)] at h1
    omega

/-- Claim C7: a Request whose handler fails is converted by the Dispatcher
into an Err Response carrying the same request id; the server Channel's
lifecycle state is untouched, and the Responses of sibling Requests are
exactly what they would have been anyway (each Request is dispatched
independently). -/
theorem handler_failure_becomes_err_response
    (reg : List (String × Handler)) (req : Request) (h : Handler)
    (k msg : String)
    (hl : reg.lookup req.method = some h)
    (hf : h { deadline := req.deadline, trace_id := req.trace_id } req.args =
      Except.error (k, msg)) :
    dispatch reg req = { id := req.id, outcome := Outcome.err k msg } ∧
    (∀ sch : ServerChannel, (serveStep reg sch req).state = sch.state) ∧
    (∀ reqs : List Request,
      serveAll reg (reqs ++ [req]) =
        serveAll reg reqs ++ [dispatch reg req]) := by
  refine ⟨?_, ?_, ?_⟩
  · simp [dispatch, hl, runHandler, hf]
  · intro sch
    cases hs : sch.state <;> simp [serveStep, hs]
  · intro reqs
    simp [serveAll]

/-- Embedded for the C7 witness: a handler that always fails. -/
def boomHandler : Handler :=
  fun _ _ => Except.error ("boom", "handler failed")

/-- Witness for C7: dispatching a request for the always-failing handler
yields an Err Response with the same id. -/
theorem handler_failure_becomes_err_response_witness :
    ([("boom", boomHandler)].lookup "boom" = some boomHandler ∧
     boomHandler { deadline := none, trace_id := none } "x" =
       Except.error ("boom", "handler failed")) ∧
    dispatch [("boom", boomHandler)]
        { id := 0, method := "boom", deadline := none, trace_id := none,
          args := "x" } =
      { id := 0, outcome := Outcome.err "boom" "handler failed" } :=
  ⟨⟨rfl, rfl⟩,
   (handler_failure_becomes_err_response [("boom", boomHandler)]
     { id := 0, method := "boom", deadline := none, trace_id := none,
       args := "x" }
     boomHandler "boom" "handler failed" rfl rfl).1⟩

/-- Claim C8: when the deadline of a pending call expires, its PendingCall
entry is removed from the pending table and the caller receives
DeadlineExceeded; a Response for that id arriving later (the remote handler
having run to completion) is simply dropped; and the expiry is purely local —
the server side of the system is untouched, so expiry by itself does not
stop the remote handler. -/
theorem deadline_expiry_is_local (ch : ClientChannel) (i : Nat)
    (hmem : i ∈ ch.pending) (hnd : ch.pending.Nodup) :
    (fireDeadline ch i).pending = ch.pending.erase i ∧
    (fireDeadline ch i).outcomes =
      ch.outcomes ++ [(i, CallOutcome.deadlineExceeded)] ∧
    (∀ o : Outcome,
      deliverResponse (fireDeadline ch i) { id := i, outcome := o } =
        fireDeadline ch i) ∧
    (∀ sch : ServerChannel,
      (worldFireDeadline { client := ch, server := sch } i).server = sch) := by
  refine ⟨?_, ?_, ?_, ?_⟩
  · simp [fireDeadline, hmem]
  · simp [fireDeadline, hmem]
  · intro o
    have hout : i ∉ (fireDeadline ch i).pending := by
      simpa [fireDeadline, hmem] using hnd.not_mem_erase
    simp [deliverResponse, hout]
  · intro sch
    rfl

/-- The concrete channel used by the C8 witness: one pending call, id 0. -/
def witnessChannel : ClientChannel :=
  { pending := [0], next_id := 1, state := ChanState.Open,
    sent := [], outcomes := [] }

/-- Witness for C8: firing the deadline of the single pending call of
`witnessChannel`. -/
theorem deadline_expiry_is_local_witness :
    ((0 : Nat) ∈ witnessChannel.pending ∧ witnessChannel.pending.Nodup) ∧
    ((fireDeadline witnessChannel 0).pending =
        witnessChannel.pending.erase 0 ∧
     (fireDeadline witnessChannel 0).outcomes =
        witnessChannel.outcomes ++ [(0, CallOutcome.deadlineExceeded)] ∧
     (∀ o : Outcome,
        deliverResponse (fireDeadline witnessChannel 0)
            { id := 0, outcome := o } =
          fireDeadline witnessChannel 0) ∧
     (∀ sch : ServerChannel,
        (worldFireDeadline { client := witnessChannel, server := sch } 0).server
          = sch)) :=
  ⟨⟨by decide, by decide⟩,
   deadline_expiry_is_local witnessChannel 0 (by decide) (by decide)⟩

/-- Claim C9: the Context is the first argument everywhere: the default
Context carries no deadline; the Client Stub, given a Context first, embeds
its deadline and trace id into the Request it sends; and the Dispatcher
invokes the `hello` handler with the Context (reconstructed from those
fields) as its first argument. -/
theorem context_flows_first_with_default :
    Context.current.deadline = none ∧
    (∀ (ctx : Context) (m a : String) (p : List Nat) (n : Nat)
      (s : List Frame) (o : List (Nat × CallOutcome)),
      (issueCall ⟨p, n, ChanState.Open, s, o⟩ ctx m a).sent =
        s ++ [Frame.request (mkRequest n ctx m a)]) ∧
    (∀ (i : Nat) (ctx : Context) (name : String),
      dispatch worldRegistry (mkRequest i ctx "hello" name) =
        { id := i,
          outcome := Outcome.ok (HelloServer.hello
            { deadline := ctx.deadline, trace_id := ctx.trace_id } name) }) := by
  refine ⟨rfl, ?_, ?_⟩
  · intro ctx m a p n s o
    simp [issueCall]
  · intro i ctx name
    rfl

/-- Claim C10: the `hello` handler is deterministic and its result does not
depend on the Context argument: any two Contexts give the same output for
the same name. -/
theorem hello_context_independent (c1 c2 : Context) (name : String) :
    HelloServer.hello c1 name = HelloServer.hello c2 name := rfl
